import Mathlib

/-!
Shallow embedding of the fan-out / fan-in agent orchestration backend
(Express + LangChain service in `src/backend/src`), together with proofs
of its specified properties.

Remote LLM invocations (`geminiClient.invoke`, `openaiClient.invoke`,
`claudeClient.invoke`) are opaque network calls; each is modelled by the
settled result of awaiting it together with the elapsed wall-clock
milliseconds measured around it (`Date.now()` differences in the source).
Everything downstream of those awaits is translated directly from the
TypeScript source.
-/

namespace ThreeAgents

set_option maxRecDepth 16384

/-! ## JavaScript string primitives used by the source -/

/-- The whitespace class of JavaScript: the characters matched by the regex
class `\s` and stripped by `String.prototype.trim`. -/
def isJsWs (c : Char) : Bool :=
  c == ' ' || c == '\t' || c == '\n' || (c == (Char.ofNat 11)) || (c == (Char.ofNat 12)) ||
  c == '\r' || c == (Char.ofNat 160) || c == (Char.ofNat 0x1680) ||
  ((Char.ofNat 0x2000) ≤ c && c ≤ (Char.ofNat 0x200A)) ||
  c == (Char.ofNat 0x2028) || c == (Char.ofNat 0x2029) || c == (Char.ofNat 0x202F) ||
  c == (Char.ofNat 0x205F) || c == (Char.ofNat 0x3000) || c == (Char.ofNat 0xFEFF)

/-- `String.prototype.trim` on a character list: drop JS whitespace from
both ends. -/
def jsTrimList (l : List Char) : List Char :=
  (l.dropWhile isJsWs).rdropWhile isJsWs

/-- `String.prototype.trim`. -/
def jsTrim (s : String) : String :=
  String.mk (jsTrimList s.data)

/-- Case-insensitive character comparison, as performed by a regex with the
`i` flag on the ASCII marker tokens of the source. -/
def lcEq (a b : Char) : Bool :=
  a.toLower == b.toLower

/-- `matchAt pat s`: `pat` matches case-insensitively at the start of `s`. -/
def matchAt : List Char → List Char → Bool
  | [], _ => true
  | _ :: _, [] => false
  | p :: ps, c :: cs => lcEq p c && matchAt ps cs

/-- Index of the first case-insensitive occurrence of `pat` in `s`
(the position where a JS regex anchored on the literal `pat` first matches). -/
def findIdx (pat : List Char) : List Char → Option Nat
  | [] => if matchAt pat [] then some 0 else none
  | c :: cs => if matchAt pat (c :: cs) then some 0 else (findIdx pat cs).map (· + 1)

/-- Case-sensitive prefix match. -/
def matchAtCS : List Char → List Char → Bool
  | [], _ => true
  | _ :: _, [] => false
  | p :: ps, c :: cs => p == c && matchAtCS ps cs

/-- `occursCS pat s`: `pat` occurs (case-sensitively) somewhere in `s`. -/
def occursCS (pat : List Char) : List Char → Bool
  | [] => matchAtCS pat []
  | c :: cs => matchAtCS pat (c :: cs) || occursCS pat cs

/-- `strContains hay needle`: `needle` is a contiguous substring of `hay`. -/
def strContains (hay needle : String) : Bool :=
  occursCS needle.data hay.data

/-! ## The two regex markers of `parseClaudeResponse` -/

def reasoningMarker : List Char := ['R', 'E', 'A', 'S', 'O', 'N', 'I', 'N', 'G', ':']

def finalMarker : List Char :=
  ['F', 'I', 'N', 'A', 'L', ' ', 'A', 'N', 'S', 'W', 'E', 'R', ':']

/-! ## `parseClaudeResponse` (claude.service.ts)

The source matches `/REASONING:\s*([\s\S]*?)(?=FINAL ANSWER:|$)/i` and
`/FINAL ANSWER:\s*([\s\S]*?)$/i`.  The first regex matches at the first
case-insensitive occurrence of `REASONING:`; the greedy `\s*` then consumes
the maximal whitespace run and the lazy group captures up to the first
following occurrence of `FINAL ANSWER:` (or to the end of the string).  The
second captures everything after the whitespace run following the first
occurrence of `FINAL ANSWER:`. -/

/-- Capture group 1 of the `REASONING:` regex, `none` when the regex does
not match. -/
def reasoningCapture (s : List Char) : Option (List Char) :=
  match findIdx reasoningMarker s with
  | none => none
  | some i =>
    let afterWs := (s.drop (i + reasoningMarker.length)).dropWhile isJsWs
    match findIdx finalMarker afterWs with
    | none => some afterWs
    | some k => some (afterWs.take k)

/-- Capture group 1 of the `FINAL ANSWER:` regex, `none` when the regex
does not match. -/
def finalCapture (s : List Char) : Option (List Char) :=
  match findIdx finalMarker s with
  | none => none
  | some i => some ((s.drop (i + finalMarker.length)).dropWhile isJsWs)

structure ParsedSynthesis where
  finalAnswer : String
  reasoning : String
  deriving DecidableEq, Repr

/-- `parseClaudeResponse` of claude.service.ts.  The `||` fallbacks follow
JS truthiness: a capture that trims to the empty string is falsy and falls
through to the fallback. -/
def parseClaudeResponse (response : String) : ParsedSynthesis :=
  let s := response.data
  let reasoning : List Char :=
    match (reasoningCapture s).map jsTrimList with
    | some r => if r = [] then "No reasoning provided".data else r
    | none => "No reasoning provided".data
  let finalAnswer : List Char :=
    match (finalCapture s).map jsTrimList with
    | some f => if f = [] then jsTrimList s else f
    | none => jsTrimList s
  ⟨String.mk finalAnswer, String.mk reasoning⟩

/-! ## Data model (types/index.ts) -/

/-- A JavaScript value thrown by the underlying remote call: either an
`Error` instance carrying a message, or some non-`Error` value. -/
inductive Thrown where
  | error (message : String)
  | nonError
  deriving DecidableEq, Repr

/-- `AgentError` of types/index.ts: `class AgentError extends Error` with
`agentName` and `originalError` fields.  `stack` is the runtime-generated
trace attached by the JS `Error` constructor; the source never sets it, so
the model leaves it abstract as an optional string (`none` at the
construction sites of the source). -/
structure AgentError where
  message : String
  agentName : String
  originalError : Option Thrown
  stack : Option String
  deriving DecidableEq, Repr

/-- Settled result of awaiting one underlying LLM client invocation
(`geminiClient.invoke`, `openaiClient.invoke` or `claudeClient.invoke`),
together with the elapsed wall-clock milliseconds that the surrounding
`Date.now()` bracket measured for it. -/
inductive RemoteCall where
  | fulfilled (text : String) (elapsed : Nat)
  | rejected (reason : Thrown) (elapsed : Nat)
  deriving DecidableEq, Repr

/-- Return value of `queryGemini` / `queryOpenAI` on success. -/
structure QueryResult where
  response : String
  time : Nat
  deriving DecidableEq, Repr

/-- `metadata` field of `AgentState`. -/
structure Metadata where
  geminiTime : Option Nat
  openaiTime : Option Nat
  claudeTime : Option Nat
  totalTime : Nat
  deriving DecidableEq, Repr

/-- `AgentState` of types/index.ts. -/
structure AgentState where
  question : String
  geminiResponse : Option String
  geminiError : Option String
  openaiResponse : Option String
  openaiError : Option String
  finalAnswer : Option String
  reasoning : Option String
  metadata : Metadata
  deriving DecidableEq, Repr

/-! ## Branch callers (gemini.service.ts, openai.service.ts)

Each wraps the remote call in `try/catch`; on any failure of the `await`
(network error, malformed reply, failed extraction of the reply text) it
throws `new AgentError('Failed to get response from …', '…', error)`.
A throw in an `async` function is a rejected promise, modelled as
`Except.error`. -/

def queryGemini : RemoteCall → Except AgentError QueryResult
  | .fulfilled text elapsed => .ok ⟨text, elapsed⟩
  | .rejected reason _ =>
    .error ⟨"Failed to get response from Gemini", "Gemini", some reason, none⟩

def queryOpenAI : RemoteCall → Except AgentError QueryResult
  | .fulfilled text elapsed => .ok ⟨text, elapsed⟩
  | .rejected reason _ =>
    .error ⟨"Failed to get response from OpenAI", "OpenAI", some reason, none⟩

/-! ## Fan-out (agent.service.ts, `runParallelAgents`) -/

/-- One element of the array produced by `Promise.allSettled` for a branch
query.  The rejection reason is exactly the `AgentError` thrown by
`queryGemini` / `queryOpenAI` (the only values those functions throw). -/
inductive SettledBranch where
  | fulfilled (value : QueryResult)
  | rejected (reason : AgentError)
  deriving DecidableEq, Repr

/-- View of a branch caller's promise as `Promise.allSettled` sees it. -/
def settle : Except AgentError QueryResult → SettledBranch
  | .ok v => .fulfilled v
  | .error e => .rejected e

/-- `Promise.allSettled([pA, pB])` for two promises: per the JS language
specification the result array is indexed by input position, independent of
the order in which the two promises settle; it fulfills only once both have
settled, and a rejection of either never cancels the other.  The boolean
records which promise settled first and — faithfully to the JS semantics —
has no influence on the result. -/
def promiseAllSettled2 (_geminiSettledFirst : Bool) (g o : SettledBranch) :
    SettledBranch × SettledBranch :=
  (g, o)

/-- `reason instanceof Error ? reason.message : 'Unknown error'`.
The reasons produced by the branch callers are always `AgentError`s, which
extend `Error`, so the `instanceof` test succeeds and the wrapper's message
is extracted. -/
def settledErrorMessage (reason : AgentError) : String :=
  reason.message

/-- Initial state built by `executeAgentWorkflow`. -/
def initialState (question : String) : AgentState :=
  ⟨question, none, none, none, none, none, none, ⟨none, none, none, 0⟩⟩

/-- `runParallelAgents` of agent.service.ts: fan the question out to both
branch callers, join with `Promise.allSettled`, and fold each settled
result into the state — response text and elapsed time on fulfillment, the
error message (as data) on rejection. -/
def runParallelAgents (geminiSettledFirst : Bool) (state : AgentState)
    (geminiCall openaiCall : RemoteCall) : AgentState :=
  let results := promiseAllSettled2 geminiSettledFirst
    (settle (queryGemini geminiCall)) (settle (queryOpenAI openaiCall))
  let s1 : AgentState :=
    match results.1 with
    | .fulfilled v =>
      { state with geminiResponse := some v.response,
                   metadata := { state.metadata with geminiTime := some v.time } }
    | .rejected reason => { state with geminiError := some (settledErrorMessage reason) }
  match results.2 with
  | .fulfilled v =>
    { s1 with openaiResponse := some v.response,
              metadata := { s1.metadata with openaiTime := some v.time } }
  | .rejected reason => { s1 with openaiError := some (settledErrorMessage reason) }

/-! ## Synthesis (claude.service.ts) -/

/-- `SynthesisInput` of claude.service.ts. -/
structure SynthesisInput where
  question : String
  geminiResponse : Option String
  geminiError : Option String
  openaiResponse : Option String
  openaiError : Option String
  deriving DecidableEq, Repr

/-- `SynthesisOutput` of claude.service.ts. -/
structure SynthesisOutput where
  finalAnswer : String
  reasoning : String
  time : Nat
  deriving DecidableEq, Repr

/-- JS truthiness of an optional string field: present and non-empty. -/
def strTruthy : Option String → Bool
  | some s => !(s == "")
  | none => false

/-- Leading part of the synthesis prompt, up to the branch sections. -/
def promptHeader (question : String) : String :=
  "You are tasked with synthesizing and evaluating responses from multiple AI models to provide the best possible answer to a user's question.\n\nOriginal Question: " ++
  question ++ "\n\n"

/-- The branch section added for Gemini (empty when neither field is truthy). -/
def promptGeminiSection (input : SynthesisInput) : String :=
  if strTruthy input.geminiResponse then
    "Gemini's Response:\n" ++ input.geminiResponse.getD "" ++ "\n\n"
  else if strTruthy input.geminiError then
    "Gemini's Response: [ERROR] " ++ input.geminiError.getD "" ++ "\n\n"
  else ""

/-- The branch section added for OpenAI (empty when neither field is truthy). -/
def promptOpenaiSection (input : SynthesisInput) : String :=
  if strTruthy input.openaiResponse then
    "OpenAI's Response:\n" ++ input.openaiResponse.getD "" ++ "\n\n"
  else if strTruthy input.openaiError then
    "OpenAI's Response: [ERROR] " ++ input.openaiError.getD "" ++ "\n\n"
  else ""

/-- Trailing task instructions of the synthesis prompt. -/
def promptTask : String :=
  "Your task:\n1. Analyze both responses (if available) for accuracy, completeness, and quality\n2. Synthesize the best aspects of both responses into a single, comprehensive answer\n3. If only one response is available (due to errors), evaluate and potentially improve it\n4. Provide clear reasoning for your synthesis approach\n\nPlease structure your response EXACTLY as follows:\n\nREASONING:\n[Your detailed reasoning about the responses and your synthesis approach]\n\nFINAL ANSWER:\n[Your synthesized answer to the original question]"

/-- `buildSynthesisPrompt` of claude.service.ts. -/
def buildSynthesisPrompt (input : SynthesisInput) : String :=
  promptHeader input.question ++ promptGeminiSection input ++
  promptOpenaiSection input ++ promptTask

/-- `synthesizeResponses` of claude.service.ts.  `claude` maps the prompt
actually sent to the settled result of the remote invocation.  On
fulfillment the reply is parsed; on rejection the error is wrapped in an
`AgentError` and thrown. -/
def synthesizeResponses (claude : String → RemoteCall) (input : SynthesisInput) :
    Except AgentError SynthesisOutput :=
  let prompt := buildSynthesisPrompt input
  match claude prompt with
  | .fulfilled text elapsed =>
    let parsed := parseClaudeResponse text
    .ok ⟨parsed.finalAnswer, parsed.reasoning, elapsed⟩
  | .rejected reason _ =>
    .error ⟨"Failed to synthesize responses with Claude", "Claude", some reason, none⟩

/-! ## Orchestrator (agent.service.ts) -/

/-- The `SynthesisInput` that `runClaudeSynthesis` builds from the state. -/
def synthesisInputOf (state : AgentState) : SynthesisInput :=
  ⟨state.question, state.geminiResponse, state.geminiError,
   state.openaiResponse, state.openaiError⟩

/-- `runClaudeSynthesis` of agent.service.ts.  `x || 0` on an optional
number is `Option.getD 0` (for natural-number millisecond counts, `0 || 0`
and a missing field both give `0`). -/
def runClaudeSynthesis (claude : String → RemoteCall) (state : AgentState) :
    Except AgentError AgentState :=
  match synthesizeResponses claude (synthesisInputOf state) with
  | .error e => .error e
  | .ok out =>
    let totalTime :=
      state.metadata.geminiTime.getD 0 + state.metadata.openaiTime.getD 0 + out.time
    .ok { state with
            finalAnswer := some out.finalAnswer,
            reasoning := some out.reasoning,
            metadata := { state.metadata with
                            claudeTime := some out.time, totalTime := totalTime } }

/-- `executeAgentWorkflow` of agent.service.ts: fan-out, then synthesis.
The surrounding `try/catch` only logs and rethrows the same error, so it is
the identity on the result. -/
def executeAgentWorkflow (geminiSettledFirst : Bool) (question : String)
    (geminiCall openaiCall : RemoteCall) (claude : String → RemoteCall) :
    Except AgentError AgentState :=
  let stateAfterAgents :=
    runParallelAgents geminiSettledFirst (initialState question) geminiCall openaiCall
  runClaudeSynthesis claude stateAfterAgents

/-! ## Response model (response.model.ts) -/

/-- Per-agent block of the wire response. -/
structure AgentResponse where
  response : String
  processingTime : Nat
  error : Option String
  deriving DecidableEq, Repr

/-- Claude block of the wire response. -/
structure ClaudeSummary where
  finalAnswer : String
  reasoning : String
  processingTime : Nat
  deriving DecidableEq, Repr

/-- `data` block of the wire response. -/
structure ChatResponseData where
  question : String
  gemini : AgentResponse
  openai : AgentResponse
  claude : ClaudeSummary
  totalProcessingTime : Nat
  deriving DecidableEq, Repr

/-- `ChatResponse` of types/index.ts. -/
structure ChatResponse where
  success : Bool
  data : Option ChatResponseData
  error : Option String
  details : Option String
  deriving DecidableEq, Repr

/-- `...(state.xError && { error: state.xError })`: the `error` key is
spread into the object only when the field is truthy (present and
non-empty). -/
def errField : Option String → Option String
  | some s => if s = "" then none else some s
  | none => none

/-- `formatSuccessResponse` of response.model.ts. -/
def formatSuccessResponse (state : AgentState) : ChatResponse :=
  { success := true
    data := some
      { question := state.question
        gemini := ⟨state.geminiResponse.getD "", state.metadata.geminiTime.getD 0,
                   errField state.geminiError⟩
        openai := ⟨state.openaiResponse.getD "", state.metadata.openaiTime.getD 0,
                   errField state.openaiError⟩
        claude := ⟨state.finalAnswer.getD "", state.reasoning.getD "",
                   state.metadata.claudeTime.getD 0⟩
        totalProcessingTime := state.metadata.totalTime }
    error := none
    details := none }

/-- A value caught by a `catch` block at the boundary: an `AgentError`, a
plain JS `Error`, or a non-`Error` value. -/
inductive Caught where
  | agentErr (e : AgentError)
  | jsErr (message : String) (stack : Option String)
  | other
  deriving DecidableEq, Repr

/-- `formatErrorResponse` of response.model.ts:
`error instanceof Error ? error.message : 'An unknown error occurred'`,
with the stack trace (when the value is an `Error`) attached as `details`. -/
def formatErrorResponse : Caught → ChatResponse
  | .agentErr e => ⟨false, none, some e.message, e.stack⟩
  | .jsErr m st => ⟨false, none, some m, st⟩
  | .other => ⟨false, none, some "An unknown error occurred", none⟩

/-! ## Controller (chat.controller.ts) -/

/-- The `question` field of the request body: absent (or nullish), present
but not a string, or a string. -/
inductive QuestionField where
  | missing
  | nonString
  | str (s : String)
  deriving DecidableEq, Repr

/-- `askQuestion` of chat.controller.ts, returning the HTTP status code and
the JSON body.  The validation
`!question || typeof question !== 'string' || question.trim() === ''`
rejects a missing field, a non-string field, the empty string (falsy) and
any whitespace-only string; otherwise the workflow runs on the trimmed
question.  The `new Error(...)` built for rejection carries a
runtime-generated stack, modelled as absent. -/
def askQuestion (body : QuestionField) (geminiSettledFirst : Bool)
    (geminiCall openaiCall : RemoteCall) (claude : String → RemoteCall) :
    Nat × ChatResponse :=
  match body with
  | .str q =>
    if q == "" || jsTrim q == "" then
      (400, formatErrorResponse
        (.jsErr "Question is required and must be a non-empty string" none))
    else
      match executeAgentWorkflow geminiSettledFirst (jsTrim q)
              geminiCall openaiCall claude with
      | .ok st => (200, formatSuccessResponse st)
      | .error e => (500, formatErrorResponse (.agentErr e))
  | _ =>
    (400, formatErrorResponse
      (.jsErr "Question is required and must be a non-empty string" none))

/-! ## Lemmas about the string-matching primitives -/

theorem lcEq_refl (c : Char) : lcEq c c = true := by
  simp [lcEq]

theorem matchAt_self_append (pat t : List Char) : matchAt pat (pat ++ t) = true := by
  induction pat with
  | nil => rfl
  | cons p ps ih => simp [matchAt, lcEq_refl, ih]

theorem matchAtCS_self_append (pat t : List Char) : matchAtCS pat (pat ++ t) = true := by
  induction pat with
  | nil => rfl
  | cons p ps ih => simp [matchAtCS, ih]

theorem occursCS_of_matchAtCS {pat s : List Char} (h : matchAtCS pat s = true) :
    occursCS pat s = true := by
  cases s with
  | nil => exact h
  | cons c cs => simp [occursCS, h]

theorem occursCS_append_middle (u pat v : List Char) :
    occursCS pat (u ++ (pat ++ v)) = true := by
  induction u with
  | nil => exact occursCS_of_matchAtCS (matchAtCS_self_append pat v)
  | cons c u' ih => simp [occursCS, ih]

theorem findIdx_of_matchAt {pat s : List Char} (h : matchAt pat s = true) :
    findIdx pat s = some 0 := by
  cases s <;> simp [findIdx, h]

theorem findIdx_cons_ne {p c : Char} {ps cs : List Char} (h : lcEq p c = false) :
    findIdx (p :: ps) (c :: cs) = (findIdx (p :: ps) cs).map (· + 1) := by
  simp [findIdx, matchAt, h]

theorem findIdx_none_matchAt {pat : List Char} :
    ∀ {s : List Char}, findIdx pat s = none → ∀ i, matchAt pat (s.drop i) = false := by
  intro s
  induction s with
  | nil =>
    intro h i
    rw [List.drop_nil]
    by_cases hm : matchAt pat [] = true
    · rw [findIdx, if_pos hm] at h; exact absurd h (by simp)
    · simpa using hm
  | cons c cs ih =>
    intro h i
    by_cases hm : matchAt pat (c :: cs) = true
    · rw [findIdx, if_pos hm] at h; exact absurd h (by simp)
    · have htail : findIdx pat cs = none := by
        rw [findIdx, if_neg hm] at h
        exact Option.map_eq_none'.mp h
      cases i with
      | zero => simpa using hm
      | succ j => exact ih htail j

theorem findIdx_append_shift (pat : List Char) {u v : List Char}
    (h : ∀ i, i < u.length → matchAt pat (u.drop i ++ v) = false) :
    findIdx pat (u ++ v) = (findIdx pat v).map (· + u.length) := by
  induction u with
  | nil => cases hv : findIdx pat v <;> simp [hv]
  | cons c u' ih =>
    have h0 : matchAt pat (c :: (u' ++ v)) = false := by
      simpa using h 0 (by simp)
    have hrest : ∀ i, i < u'.length → matchAt pat (u'.drop i ++ v) = false := by
      intro i hi
      simpa using h (i + 1) (by simpa using Nat.succ_lt_succ hi)
    rw [List.cons_append, findIdx, if_neg (by simp [h0]), ih hrest]
    cases findIdx pat v <;> simp [Nat.add_assoc]

theorem matchAt_append_stop {v : List Char} :
    ∀ (pat u : List Char), (∀ p ∈ pat, lcEq p '\n' = false) →
      matchAt pat (u ++ '\n' :: v) = true → matchAt pat u = true
  | [], u, _, _ => by cases u <;> rfl
  | p :: ps, [], hpat, h => by
    rw [List.nil_append, matchAt] at h
    have := hpat p (List.mem_cons_self p ps)
    simp [this] at h
  | p :: ps, c :: u', hpat, h => by
    rw [List.cons_append, matchAt] at h
    rw [matchAt]
    have h1 := (Bool.and_eq_true _ _).mp h
    exact (Bool.and_eq_true _ _).mpr
      ⟨h1.1, matchAt_append_stop ps u' (fun x hx => hpat x (List.mem_cons_of_mem p hx)) h1.2⟩

/-! ## Lemmas about JS trimming -/

theorem rdropWhile_append_ws {p : Char → Bool} (x : List Char) :
    ∀ t : List Char, (∀ c ∈ t, p c = true) → (x ++ t).rdropWhile p = x.rdropWhile p := by
  intro t
  induction t using List.reverseRecOn with
  | nil => simp
  | append_singleton t' a ih =>
    intro ht
    rw [← List.append_assoc, List.rdropWhile_concat_pos _ _ _
      (by simpa using ht a (by simp))]
    exact ih fun c hc => ht c (by simp [hc])

theorem jsTrimList_dropWhile (l : List Char) :
    jsTrimList (l.dropWhile isJsWs) = jsTrimList l := by
  simp [jsTrimList, List.dropWhile_idempotent]

theorem jsTrimList_append_ws (l t : List Char) (ht : ∀ c ∈ t, isJsWs c = true) :
    jsTrimList (l ++ t) = jsTrimList l := by
  rw [jsTrimList, jsTrimList, List.dropWhile_append]
  by_cases hl : (l.dropWhile isJsWs).isEmpty
  · rw [if_pos hl]
    have h1 : t.dropWhile isJsWs = [] := List.dropWhile_eq_nil_iff.mpr fun c hc => ht c hc
    have h2 : l.dropWhile isJsWs = [] := by simpa using hl
    simp [h1, h2]
  · rw [if_neg hl]
    exact rdropWhile_append_ws _ t ht

theorem dropWhile_append_of_ne_nil {p : Char → Bool} {l : List Char} (t : List Char)
    (h : l.dropWhile p ≠ []) : (l ++ t).dropWhile p = l.dropWhile p ++ t := by
  rw [List.dropWhile_append, if_neg (by simpa using h)]

theorem dropWhile_ne_nil_of_trim {r : List Char} (h : jsTrimList r ≠ []) :
    r.dropWhile isJsWs ≠ [] := by
  intro hc
  exact h (by simp [jsTrimList, hc])

/-! ## Claim theorems -/

/-- C2: for every workflow run in which both branches succeed and synthesis
succeeds, the reported `totalProcessingTime` equals exactly the sum of
branch A's elapsed time, branch B's elapsed time and the synthesis elapsed
time — no term omitted and none counted twice. -/
theorem c2_total_time_is_exact_sum (ord : Bool) (q tA tB : String) (eA eB : Nat)
    (claude : String → RemoteCall) (tS : String) (eS : Nat)
    (h : claude (buildSynthesisPrompt (synthesisInputOf
          (runParallelAgents ord (initialState q)
            (RemoteCall.fulfilled tA eA) (RemoteCall.fulfilled tB eB))))
        = RemoteCall.fulfilled tS eS) :
    ∃ st, executeAgentWorkflow ord q (RemoteCall.fulfilled tA eA)
        (RemoteCall.fulfilled tB eB) claude = Except.ok st
      ∧ st.metadata.totalTime = eA + eB + eS
      ∧ ∃ d, (formatSuccessResponse st).data = some d
          ∧ d.totalProcessingTime = eA + eB + eS := by
  simp only [executeAgentWorkflow, runClaudeSynthesis, synthesizeResponses, h]
  refine ⟨_, rfl, ?_, _, rfl, ?_⟩ <;>
    simp [runParallelAgents, promiseAllSettled2, settle, queryGemini, queryOpenAI,
      initialState, formatSuccessResponse]

theorem c2_total_time_is_exact_sum_witness :
    ∃ st, executeAgentWorkflow true "What is the capital of France?"
        (RemoteCall.fulfilled "Paris" 100) (RemoteCall.fulfilled "Paris, France" 150)
        (fun _ => RemoteCall.fulfilled "REASONING:\nBoth agree.\n\nFINAL ANSWER:\nParis." 50)
        = Except.ok st
      ∧ st.metadata.totalTime = 100 + 150 + 50
      ∧ ∃ d, (formatSuccessResponse st).data = some d
          ∧ d.totalProcessingTime = 100 + 150 + 50 :=
  c2_total_time_is_exact_sum true "What is the capital of France?" "Paris" "Paris, France"
    100 150 _ "REASONING:\nBoth agree.\n\nFINAL ANSWER:\nParis." 50 rfl

/-- C3: the fan-out step consumes both settled branch outcomes — a failure
of one branch never short-circuits the other's contribution — the returned
state places branch A's outcome in the A slots and branch B's in the B
slots, each slot depends only on its own branch's outcome, and the result
is independent of which branch settled first. -/
theorem c3_fan_out_both_settle_slot_identity (ord : Bool) (st : AgentState)
    (gc oc gc' oc' : RemoteCall) (t tb : String) (el elb : Nat) (ra rb : Thrown) :
    runParallelAgents ord st gc oc = runParallelAgents (!ord) st gc oc
  ∧ (runParallelAgents ord st (RemoteCall.fulfilled t el) oc).geminiResponse = some t
  ∧ (runParallelAgents ord st (RemoteCall.fulfilled t el) oc).metadata.geminiTime = some el
  ∧ (runParallelAgents ord st (RemoteCall.rejected ra el) oc).geminiError
      = some "Failed to get response from Gemini"
  ∧ (runParallelAgents ord st gc (RemoteCall.fulfilled tb elb)).openaiResponse = some tb
  ∧ (runParallelAgents ord st gc (RemoteCall.fulfilled tb elb)).metadata.openaiTime = some elb
  ∧ (runParallelAgents ord st gc (RemoteCall.rejected rb elb)).openaiError
      = some "Failed to get response from OpenAI"
  ∧ (runParallelAgents ord st gc oc).openaiResponse
      = (runParallelAgents ord st gc' oc).openaiResponse
  ∧ (runParallelAgents ord st gc oc).openaiError
      = (runParallelAgents ord st gc' oc).openaiError
  ∧ (runParallelAgents ord st gc oc).geminiResponse
      = (runParallelAgents ord st gc oc').geminiResponse
  ∧ (runParallelAgents ord st gc oc).geminiError
      = (runParallelAgents ord st gc oc').geminiError := by
  cases gc <;> cases oc <;> cases gc' <;> cases oc' <;>
    simp [runParallelAgents, promiseAllSettled2, settle, queryGemini, queryOpenAI,
      settledErrorMessage]

/-- C4 counterexample: the claim says the query functions never throw
across their own boundary; but on a rejected remote call `queryGemini` and
`queryOpenAI` each throw (reject with) a wrapped `AgentError` rather than
returning a success value. -/
theorem c4_counterexample :
    queryGemini (RemoteCall.rejected Thrown.nonError 5)
      = Except.error ⟨"Failed to get response from Gemini", "Gemini", some Thrown.nonError, none⟩
  ∧ queryOpenAI (RemoteCall.rejected Thrown.nonError 5)
      = Except.error ⟨"Failed to get response from OpenAI", "OpenAI", some Thrown.nonError, none⟩
  ∧ ¬ ∃ v, queryGemini (RemoteCall.rejected Thrown.nonError 5) = Except.ok v := by
  refine ⟨rfl, rfl, ?_⟩
  rintro ⟨v, hv⟩
  simp [queryGemini] at hv

/-- C4 amended: each query function catches any failure of the underlying
remote call and throws a wrapped `AgentError` carrying a fixed
human-readable message (the original error only attached as a field); the
conversion of that rejection into a `Failure` outcome as data happens one
level up, in `runParallelAgents` via `Promise.allSettled`, which is total,
so no exception escapes the fan-out step. -/
theorem c4_wrapped_throw_contained_by_fan_out (reason : Thrown) (el : Nat)
    (ord : Bool) (st : AgentState) (gc oc : RemoteCall) :
    queryGemini (RemoteCall.rejected reason el)
      = Except.error ⟨"Failed to get response from Gemini", "Gemini", some reason, none⟩
  ∧ queryOpenAI (RemoteCall.rejected reason el)
      = Except.error ⟨"Failed to get response from OpenAI", "OpenAI", some reason, none⟩
  ∧ (runParallelAgents ord st (RemoteCall.rejected reason el) oc).geminiError
      = some "Failed to get response from Gemini"
  ∧ (runParallelAgents ord st gc (RemoteCall.rejected reason el)).openaiError
      = some "Failed to get response from OpenAI" := by
  refine ⟨rfl, rfl, ?_, ?_⟩ <;> cases gc <;> cases oc <;>
    simp [runParallelAgents, promiseAllSettled2, settle, queryGemini, queryOpenAI,
      settledErrorMessage]

/-- C5 counterexample: a branch whose remote call fails after a measured
123 ms is reported with `processingTime = 0` — the measured elapsed time of
the failed call is not recorded in the workflow state nor reported. -/
theorem c5_counterexample :
    ∃ st, executeAgentWorkflow true "Q" (RemoteCall.rejected (Thrown.error "boom") 123)
        (RemoteCall.fulfilled "hi" 7) (fun _ => RemoteCall.fulfilled "A" 50) = Except.ok st
      ∧ st.metadata.geminiTime = none
      ∧ ∃ d, (formatSuccessResponse st).data = some d
          ∧ d.gemini.processingTime = 0
          ∧ d.gemini.error = some "Failed to get response from Gemini"
          ∧ (0 : Nat) ≠ 123 := by
  exact ⟨_, rfl, rfl, _, rfl, rfl, by decide, by decide⟩

/-- C5 amended: a branch's elapsed time is recorded in the workflow state
and reported in the response only when its remote call succeeds; when the
remote call fails, the measured elapsed time is discarded (the thrown
wrapper carries no time), the state's time field for that branch is left
unchanged, and — starting from the initial state — the response reports 0
for it. -/
theorem c5_elapsed_time_only_on_success (ord : Bool) (q t : String) (el : Nat)
    (reason : Thrown) (st : AgentState) (gc oc : RemoteCall) :
    (runParallelAgents ord st (RemoteCall.fulfilled t el) oc).metadata.geminiTime = some el
  ∧ (∃ d, (formatSuccessResponse (runParallelAgents ord st (RemoteCall.fulfilled t el) oc)).data
        = some d ∧ d.gemini.processingTime = el)
  ∧ (runParallelAgents ord st (RemoteCall.rejected reason el) oc).metadata.geminiTime
      = st.metadata.geminiTime
  ∧ (runParallelAgents ord (initialState q) (RemoteCall.rejected reason el) oc).metadata.geminiTime
      = none
  ∧ (∃ d, (formatSuccessResponse
        (runParallelAgents ord (initialState q) (RemoteCall.rejected reason el) oc)).data
        = some d ∧ d.gemini.processingTime = 0)
  ∧ (runParallelAgents ord st gc (RemoteCall.fulfilled t el)).metadata.openaiTime = some el
  ∧ (runParallelAgents ord st gc (RemoteCall.rejected reason el)).metadata.openaiTime
      = st.metadata.openaiTime
  ∧ (runParallelAgents ord (initialState q) gc (RemoteCall.rejected reason el)).metadata.openaiTime
      = none
  ∧ (∃ d, (formatSuccessResponse
        (runParallelAgents ord (initialState q) gc (RemoteCall.rejected reason el))).data
        = some d ∧ d.openai.processingTime = 0) := by
  cases gc <;> cases oc <;>
    simp [runParallelAgents, promiseAllSettled2, settle, queryGemini, queryOpenAI,
      settledErrorMessage, initialState, formatSuccessResponse]

/-- C8: for every workflow run in which the synthesis remote call fails,
the overall response has `success = false` with no `data` field populated —
even when both branches had succeeded — and the synthesis error's message
reaches the boundary unchanged, with the stack detail attached only as
`details`. -/
theorem c8_synthesis_failure_fails_workflow (ord : Bool) (q : String)
    (gc oc : RemoteCall) (claude : String → RemoteCall) (reason : Thrown) (el : Nat)
    (h : claude (buildSynthesisPrompt (synthesisInputOf
          (runParallelAgents ord (initialState q) gc oc))) = RemoteCall.rejected reason el) :
    ∃ e, executeAgentWorkflow ord q gc oc claude = Except.error e
      ∧ e.message = "Failed to synthesize responses with Claude"
      ∧ formatErrorResponse (Caught.agentErr e)
          = ⟨false, none, some "Failed to synthesize responses with Claude", e.stack⟩
      ∧ (formatErrorResponse (Caught.agentErr e)).data = none := by
  simp only [executeAgentWorkflow, runClaudeSynthesis, synthesizeResponses, h]
  exact ⟨_, rfl, rfl, rfl, rfl⟩

theorem c8_synthesis_failure_fails_workflow_witness :
    ∃ e, executeAgentWorkflow true "Q" (RemoteCall.fulfilled "a" 1)
        (RemoteCall.fulfilled "b" 2)
        (fun _ => RemoteCall.rejected (Thrown.error "network down") 9) = Except.error e
      ∧ e.message = "Failed to synthesize responses with Claude"
      ∧ formatErrorResponse (Caught.agentErr e)
          = ⟨false, none, some "Failed to synthesize responses with Claude", e.stack⟩
      ∧ (formatErrorResponse (Caught.agentErr e)).data = none :=
  c8_synthesis_failure_fails_workflow true "Q" (RemoteCall.fulfilled "a" 1)
    (RemoteCall.fulfilled "b" 2) _ (Thrown.error "network down") 9 rfl

/-- C9: for every request whose question is missing, not a string, or empty
after trimming whitespace, the boundary rejects it with a 400 error
response whose value does not depend on the remote services — so no branch
call and no synthesis call is ever made for such a request. -/
theorem c9_invalid_question_rejected_before_core (ord : Bool)
    (gc oc : RemoteCall) (claude : String → RemoteCall) (s : String)
    (h : jsTrim s = "") :
    askQuestion QuestionField.missing ord gc oc claude
      = (400, ⟨false, none, some "Question is required and must be a non-empty string", none⟩)
  ∧ askQuestion QuestionField.nonString ord gc oc claude
      = (400, ⟨false, none, some "Question is required and must be a non-empty string", none⟩)
  ∧ askQuestion (QuestionField.str s) ord gc oc claude
      = (400, ⟨false, none, some "Question is required and must be a non-empty string", none⟩) := by
  refine ⟨rfl, rfl, ?_⟩
  simp [askQuestion, formatErrorResponse, h]

theorem c9_invalid_question_rejected_before_core_witness :
    askQuestion QuestionField.missing true (RemoteCall.fulfilled "a" 1)
        (RemoteCall.fulfilled "b" 2) (fun _ => RemoteCall.fulfilled "x" 3)
      = (400, ⟨false, none, some "Question is required and must be a non-empty string", none⟩)
  ∧ askQuestion QuestionField.nonString true (RemoteCall.fulfilled "a" 1)
        (RemoteCall.fulfilled "b" 2) (fun _ => RemoteCall.fulfilled "x" 3)
      = (400, ⟨false, none, some "Question is required and must be a non-empty string", none⟩)
  ∧ askQuestion (QuestionField.str "   ") true (RemoteCall.fulfilled "a" 1)
        (RemoteCall.fulfilled "b" 2) (fun _ => RemoteCall.fulfilled "x" 3)
      = (400, ⟨false, none, some "Question is required and must be a non-empty string", none⟩) :=
  c9_invalid_question_rejected_before_core true (RemoteCall.fulfilled "a" 1)
    (RemoteCall.fulfilled "b" 2) (fun _ => RemoteCall.fulfilled "x" 3) "   " (by decide)

/-- C10: for every branch failure, the branch's reported error message is
the fixed wrapper string of that branch's caller, independent of the
underlying error's own message, which is only attached to the thrown
wrapper object's `originalError` field. -/
theorem c10_fixed_wrapper_message (ord : Bool) (q m : String) (elG elO : Nat)
    (gc oc : RemoteCall) :
    queryGemini (RemoteCall.rejected (Thrown.error m) elG)
      = Except.error ⟨"Failed to get response from Gemini", "Gemini",
          some (Thrown.error m), none⟩
  ∧ queryOpenAI (RemoteCall.rejected (Thrown.error m) elO)
      = Except.error ⟨"Failed to get response from OpenAI", "OpenAI",
          some (Thrown.error m), none⟩
  ∧ (runParallelAgents ord (initialState q)
        (RemoteCall.rejected (Thrown.error m) elG) oc).geminiError
      = some "Failed to get response from Gemini"
  ∧ (runParallelAgents ord (initialState q) gc
        (RemoteCall.rejected (Thrown.error m) elO)).openaiError
      = some "Failed to get response from OpenAI"
  ∧ (∃ d, (formatSuccessResponse (runParallelAgents ord (initialState q)
        (RemoteCall.rejected (Thrown.error m) elG) oc)).data = some d
      ∧ d.gemini.error = some "Failed to get response from Gemini")
  ∧ (∃ d, (formatSuccessResponse (runParallelAgents ord (initialState q) gc
        (RemoteCall.rejected (Thrown.error m) elO))).data = some d
      ∧ d.openai.error = some "Failed to get response from OpenAI") := by
  refine ⟨rfl, rfl, ?_, ?_, ?_, ?_⟩ <;> cases gc <;> cases oc <;>
    simp [runParallelAgents, promiseAllSettled2, settle, queryGemini, queryOpenAI,
      settledErrorMessage, initialState, formatSuccessResponse, errField]

/-- C1: every completed workflow (synthesis settled successfully) yields a
`success = true` response; each branch's `error` field is present iff that
branch's remote call failed, in which case its `response` text is empty,
while a succeeding branch has its `response` text set to the branch's reply
and no `error` field — never both populated. -/
theorem c1_success_and_branch_field_exclusivity (ord : Bool) (q : String)
    (gc oc : RemoteCall) (claude : String → RemoteCall) (tS : String) (eS : Nat)
    (h : claude (buildSynthesisPrompt (synthesisInputOf
          (runParallelAgents ord (initialState q) gc oc))) = RemoteCall.fulfilled tS eS) :
    ∃ st, executeAgentWorkflow ord q gc oc claude = Except.ok st
      ∧ (formatSuccessResponse st).success = true
      ∧ ∃ d, (formatSuccessResponse st).data = some d
        ∧ (∀ t el, gc = RemoteCall.fulfilled t el →
            d.gemini.response = t ∧ d.gemini.error = none)
        ∧ (∀ r el, gc = RemoteCall.rejected r el →
            d.gemini.response = "" ∧ d.gemini.error = some "Failed to get response from Gemini")
        ∧ (∀ t el, oc = RemoteCall.fulfilled t el →
            d.openai.response = t ∧ d.openai.error = none)
        ∧ (∀ r el, oc = RemoteCall.rejected r el →
            d.openai.response = "" ∧ d.openai.error = some "Failed to get response from OpenAI") := by
  simp only [executeAgentWorkflow, runClaudeSynthesis, synthesizeResponses, h]
  refine ⟨_, rfl, rfl, _, rfl, ?_, ?_, ?_, ?_⟩
  · rintro t el rfl
    cases oc <;>
      simp [runParallelAgents, promiseAllSettled2, settle, queryGemini, queryOpenAI,
        settledErrorMessage, initialState, errField]
  · rintro r el rfl
    cases oc <;>
      simp [runParallelAgents, promiseAllSettled2, settle, queryGemini, queryOpenAI,
        settledErrorMessage, initialState, errField]
  · rintro t el rfl
    cases gc <;>
      simp [runParallelAgents, promiseAllSettled2, settle, queryGemini, queryOpenAI,
        settledErrorMessage, initialState, errField]
  · rintro r el rfl
    cases gc <;>
      simp [runParallelAgents, promiseAllSettled2, settle, queryGemini, queryOpenAI,
        settledErrorMessage, initialState, errField]

theorem c1_success_and_branch_field_exclusivity_witness :
    ∃ st, executeAgentWorkflow true "Q" (RemoteCall.rejected Thrown.nonError 5)
        (RemoteCall.fulfilled "hi" 7)
        (fun _ => RemoteCall.fulfilled "REASONING:\nR.\n\nFINAL ANSWER:\nA." 50)
        = Except.ok st
      ∧ (formatSuccessResponse st).success = true
      ∧ ∃ d, (formatSuccessResponse st).data = some d
        ∧ (∀ t el, RemoteCall.rejected Thrown.nonError 5 = RemoteCall.fulfilled t el →
            d.gemini.response = t ∧ d.gemini.error = none)
        ∧ (∀ r el, RemoteCall.rejected Thrown.nonError 5 = RemoteCall.rejected r el →
            d.gemini.response = "" ∧ d.gemini.error = some "Failed to get response from Gemini")
        ∧ (∀ t el, RemoteCall.fulfilled "hi" 7 = RemoteCall.fulfilled t el →
            d.openai.response = t ∧ d.openai.error = none)
        ∧ (∀ r el, RemoteCall.fulfilled "hi" 7 = RemoteCall.rejected r el →
            d.openai.response = "" ∧ d.openai.error = some "Failed to get response from OpenAI") :=
  c1_success_and_branch_field_exclusivity true "Q" (RemoteCall.rejected Thrown.nonError 5)
    (RemoteCall.fulfilled "hi" 7) _ "REASONING:\nR.\n\nFINAL ANSWER:\nA." 50 rfl

/-! ## Structured synthesis replies: behaviour of the two regex captures -/

theorem findIdx_finalMarker_cons (c : Char) (hc : lcEq 'F' c = false) (cs : List Char) :
    findIdx finalMarker (c :: cs) = (findIdx finalMarker cs).map (· + 1) :=
  findIdx_cons_ne hc

theorem findIdx_finalMarker_two_newlines (x : List Char) :
    findIdx finalMarker ('\n' :: '\n' :: (finalMarker ++ x)) = some 2 := by
  rw [findIdx_finalMarker_cons '\n' (by decide), findIdx_finalMarker_cons '\n' (by decide),
    findIdx_of_matchAt (matchAt_self_append _ _)]
  rfl

/-- When `finalMarker` occurs nowhere in `r` and `r'` is a suffix of `r`,
no match of `finalMarker` can start inside `r'` even when followed by a
newline-headed tail (the marker contains no newline, so a match cannot
straddle the boundary). -/
theorem shift_condition_of_none {r r' v : List Char}
    (hocc : findIdx finalMarker r = none) (hsuf : r' <:+ r) :
    ∀ i, i < r'.length → matchAt finalMarker (r'.drop i ++ '\n' :: v) = false := by
  have hall := findIdx_none_matchAt hocc
  obtain ⟨u, hu⟩ := hsuf
  intro i _
  cases hb : matchAt finalMarker (r'.drop i ++ '\n' :: v) with
  | false => rfl
  | true =>
    exfalso
    have h2 := matchAt_append_stop finalMarker (r'.drop i) (by decide) hb
    have h3 : r'.drop i = r.drop (u.length + i) := by
      conv_rhs => rw [← hu]
      rw [List.drop_append]
    rw [h3, hall (u.length + i)] at h2
    exact Bool.false_ne_true h2

theorem reasoningCapture_structured (r a : List Char)
    (hrt : jsTrimList r ≠ [])
    (hocc : findIdx finalMarker r = none) :
    reasoningCapture
        (reasoningMarker ++ '\n' :: (r ++ '\n' :: '\n' :: (finalMarker ++ '\n' :: a)))
      = some (r.dropWhile isJsWs ++ ['\n', '\n']) := by
  have h0 : findIdx reasoningMarker
      (reasoningMarker ++ '\n' :: (r ++ '\n' :: '\n' :: (finalMarker ++ '\n' :: a)))
      = some 0 :=
    findIdx_of_matchAt (matchAt_self_append _ _)
  have hdrop : (reasoningMarker ++ '\n' :: (r ++ '\n' :: '\n' :: (finalMarker ++ '\n' :: a))).drop
      (0 + reasoningMarker.length)
      = '\n' :: (r ++ '\n' :: '\n' :: (finalMarker ++ '\n' :: a)) := by
    rw [Nat.zero_add]
    exact List.drop_left _ _
  have hr' : r.dropWhile isJsWs ≠ [] := dropWhile_ne_nil_of_trim hrt
  have hws : ('\n' :: (r ++ '\n' :: '\n' :: (finalMarker ++ '\n' :: a))).dropWhile isJsWs
      = r.dropWhile isJsWs ++ '\n' :: '\n' :: (finalMarker ++ '\n' :: a) := by
    rw [List.dropWhile_cons_of_pos (by decide), dropWhile_append_of_ne_nil _ hr']
  have hfm : findIdx finalMarker
      (r.dropWhile isJsWs ++ '\n' :: '\n' :: (finalMarker ++ '\n' :: a))
      = some (2 + (r.dropWhile isJsWs).length) := by
    rw [findIdx_append_shift _
        (shift_condition_of_none hocc (List.dropWhile_suffix isJsWs)),
      findIdx_finalMarker_two_newlines]
    rfl
  simp only [reasoningCapture, h0, hdrop, hws, hfm]
  rw [Nat.add_comm 2 (r.dropWhile isJsWs).length, List.take_append]
  rfl

theorem finalCapture_structured (r a : List Char)
    (hocc : findIdx finalMarker r = none) :
    finalCapture (reasoningMarker ++ '\n' :: (r ++ '\n' :: '\n' :: (finalMarker ++ '\n' :: a)))
      = some (a.dropWhile isJsWs) := by
  have hrt : findIdx finalMarker (r ++ '\n' :: '\n' :: (finalMarker ++ '\n' :: a))
      = some (2 + r.length) := by
    rw [findIdx_append_shift _
        (shift_condition_of_none hocc (List.suffix_refl r)),
      findIdx_finalMarker_two_newlines]
    rfl
  have hidx : findIdx finalMarker
      (reasoningMarker ++ '\n' :: (r ++ '\n' :: '\n' :: (finalMarker ++ '\n' :: a)))
      = some (r.length + 13) := by
    simp only [reasoningMarker, List.cons_append, List.nil_append]
    rw [findIdx_finalMarker_cons 'R' (by decide), findIdx_finalMarker_cons 'E' (by decide),
      findIdx_finalMarker_cons 'A' (by decide), findIdx_finalMarker_cons 'S' (by decide),
      findIdx_finalMarker_cons 'O' (by decide), findIdx_finalMarker_cons 'N' (by decide),
      findIdx_finalMarker_cons 'I' (by decide), findIdx_finalMarker_cons 'N' (by decide),
      findIdx_finalMarker_cons 'G' (by decide), findIdx_finalMarker_cons ':' (by decide),
      findIdx_finalMarker_cons '\n' (by decide), hrt]
    simp only [Option.map_some', Option.some.injEq]
    omega
  have hlen : (reasoningMarker ++ '\n' :: (r ++ '\n' :: '\n' :: finalMarker)).length
      = r.length + 13 + finalMarker.length := by
    simp [reasoningMarker, finalMarker]
  have hsplit : reasoningMarker ++ '\n' :: (r ++ '\n' :: '\n' :: (finalMarker ++ '\n' :: a))
      = (reasoningMarker ++ '\n' :: (r ++ '\n' :: '\n' :: finalMarker)) ++ '\n' :: a := by
    simp [List.append_assoc]
  have hdrop : (reasoningMarker ++ '\n' :: (r ++ '\n' :: '\n' :: (finalMarker ++ '\n' :: a))).drop
      (r.length + 13 + finalMarker.length) = '\n' :: a := by
    rw [hsplit, List.drop_left' hlen]
  simp only [finalCapture, hidx, hdrop]
  rw [List.dropWhile_cons_of_pos (by decide)]

theorem string_data_mk (l : List Char) : (String.mk l).data = l := rfl

/-- C6 counterexample: the claim fails as stated on the code.  With no
markers, the parser returns the *trimmed* raw reply, not the entire raw
reply; with an empty reasoning section, it returns the placeholder rather
than the (empty) trimmed section; a reasoning section containing the
final-answer marker is cut at that marker; and a whitespace-only final
answer falls back to the trimmed full reply. -/
theorem c6_counterexample :
    (parseClaudeResponse " hi ").finalAnswer ≠ " hi "
  ∧ (parseClaudeResponse "REASONING:\n\n\nFINAL ANSWER:\nParis.").reasoning ≠ ""
  ∧ (parseClaudeResponse "REASONING:\nsee FINAL ANSWER: below\n\nFINAL ANSWER:\nParis.").reasoning
      ≠ jsTrim "see FINAL ANSWER: below"
  ∧ (parseClaudeResponse "REASONING:\nBoth.\n\nFINAL ANSWER:\n ").finalAnswer ≠ jsTrim " " :=
  ⟨by decide, by decide, by decide, by decide⟩

/-- C6 (amended): for every synthesis reply of the exact form
`REASONING:\n<r>\n\nFINAL ANSWER:\n<a>` in which `<r>` is nonempty after
trimming and contains no case-insensitive occurrence of the final-answer
marker and `<a>` is nonempty after trimming, the parser returns
reasoning = `<r>` trimmed and finalAnswer = `<a>` trimmed; and for every
reply containing neither marker (case-insensitively), the parser returns
the placeholder text as reasoning and the trimmed raw reply as the
finalAnswer. -/
theorem c6_parse_structured_and_fallback :
    (∀ r a : List Char,
      jsTrimList r ≠ [] →
      findIdx finalMarker r = none →
      jsTrimList a ≠ [] →
      parseClaudeResponse (String.mk
          (reasoningMarker ++ '\n' :: (r ++ '\n' :: '\n' :: (finalMarker ++ '\n' :: a))))
        = ⟨String.mk (jsTrimList a), String.mk (jsTrimList r)⟩)
  ∧ (∀ s : String, findIdx reasoningMarker s.data = none →
      findIdx finalMarker s.data = none →
      parseClaudeResponse s = ⟨jsTrim s, "No reasoning provided"⟩) := by
  constructor
  · intro r a hrt hocc hat
    have hrc := reasoningCapture_structured r a hrt hocc
    have hfc := finalCapture_structured r a hocc
    simp only [parseClaudeResponse, string_data_mk, hrc, hfc, Option.map_some']
    rw [jsTrimList_append_ws (r.dropWhile isJsWs) ['\n', '\n'] (by decide),
      jsTrimList_dropWhile, jsTrimList_dropWhile, if_neg hrt, if_neg hat]
  · intro s h1 h2
    simp only [parseClaudeResponse, reasoningCapture, finalCapture, h1, h2, Option.map_none']
    rfl

theorem c6_parse_structured_and_fallback_witness :
    parseClaudeResponse (String.mk (reasoningMarker ++ '\n' ::
        ("Both agree.".data ++ '\n' :: '\n' :: (finalMarker ++ '\n' :: "Paris.".data))))
      = ⟨String.mk (jsTrimList "Paris.".data), String.mk (jsTrimList "Both agree.".data)⟩
  ∧ parseClaudeResponse "Paris is nice."
      = ⟨jsTrim "Paris is nice.", "No reasoning provided"⟩ :=
  ⟨c6_parse_structured_and_fallback.1 "Both agree.".data "Paris.".data
      (by decide) (by decide) (by decide),
   c6_parse_structured_and_fallback.2 "Paris is nice." (by decide) (by decide)⟩

theorem strContains_middle1 (u pat v : String) :
    strContains (u ++ (pat ++ v)) pat = true := by
  simp only [strContains, String.data_append]
  exact occursCS_append_middle _ _ _

theorem strContains_middle2 (u1 u2 pat v : String) :
    strContains (u1 ++ (u2 ++ (pat ++ v))) pat = true := by
  simp only [strContains, String.data_append]
  rw [← List.append_assoc]
  exact occursCS_append_middle _ _ _

theorem strContains_middle1_splitpat (u a b v : String) :
    strContains (u ++ (a ++ (b ++ v))) (a ++ b) = true := by
  rw [show a ++ (b ++ v) = (a ++ b) ++ v from (String.append_assoc a b v).symm]
  exact strContains_middle1 _ _ _

theorem strContains_middle2_splitpat (u1 u2 a b v : String) :
    strContains (u1 ++ (u2 ++ (a ++ (b ++ v)))) (a ++ b) = true := by
  rw [show a ++ (b ++ v) = (a ++ b) ++ v from (String.append_assoc a b v).symm]
  exact strContains_middle2 _ _ _ _

/-- C7 counterexample: when a branch's remote call succeeds with the empty
string as its reply, the built synthesis prompt contains neither that
branch's response section nor any error marker for it — the synthesizer is
not informed of that branch's result, contradicting the claim's "for every
pair of branch outcomes". -/
theorem c7_counterexample :
    strContains (buildSynthesisPrompt (synthesisInputOf
        (runParallelAgents true (initialState "Q") (RemoteCall.fulfilled "" 5)
          (RemoteCall.fulfilled "hi" 7)))) "Gemini" = false
  ∧ strContains (buildSynthesisPrompt (synthesisInputOf
        (runParallelAgents true (initialState "Q") (RemoteCall.fulfilled "" 5)
          (RemoteCall.fulfilled "hi" 7)))) "[ERROR]" = false :=
  ⟨rfl, rfl⟩

/-- C7 (amended): the synthesis step is always invoked — in particular when
both branches failed, the workflow still completes with `success = true`
whenever the synthesis call itself succeeds — and the prompt it builds
embeds, for each branch, its labelled response section when that branch
succeeded with nonempty text, or an explicit `[ERROR]` marker carrying the
branch's failure message when it failed; a branch that succeeded with empty
text is omitted from the prompt entirely. -/
theorem c7_synthesis_always_invoked_prompt_sections (ord : Bool) (q tG tO : String)
    (eG eO : Nat) (rG rO : Thrown) (gc oc : RemoteCall) (claude : String → RemoteCall)
    (tS : String) (eS : Nat) (hG : tG ≠ "") (hO : tO ≠ "")
    (hsyn : claude (buildSynthesisPrompt (synthesisInputOf
        (runParallelAgents ord (initialState q)
          (RemoteCall.rejected rG eG) (RemoteCall.rejected rO eO))))
      = RemoteCall.fulfilled tS eS) :
    (∃ st, executeAgentWorkflow ord q (RemoteCall.rejected rG eG)
        (RemoteCall.rejected rO eO) claude = Except.ok st
      ∧ (formatSuccessResponse st).success = true
      ∧ st.finalAnswer = some (parseClaudeResponse tS).finalAnswer)
  ∧ strContains (buildSynthesisPrompt (synthesisInputOf
        (runParallelAgents ord (initialState q)
          (RemoteCall.rejected rG eG) (RemoteCall.rejected rO eO))))
        "Gemini's Response: [ERROR] Failed to get response from Gemini\n\n" = true
  ∧ strContains (buildSynthesisPrompt (synthesisInputOf
        (runParallelAgents ord (initialState q)
          (RemoteCall.rejected rG eG) (RemoteCall.rejected rO eO))))
        "OpenAI's Response: [ERROR] Failed to get response from OpenAI\n\n" = true
  ∧ strContains (buildSynthesisPrompt (synthesisInputOf
        (runParallelAgents ord (initialState q) (RemoteCall.fulfilled tG eG) oc)))
        ("Gemini's Response:\n" ++ tG ++ "\n\n") = true
  ∧ strContains (buildSynthesisPrompt (synthesisInputOf
        (runParallelAgents ord (initialState q) gc (RemoteCall.fulfilled tO eO))))
        ("OpenAI's Response:\n" ++ tO ++ "\n\n") = true := by
  have hstate : runParallelAgents ord (initialState q)
      (RemoteCall.rejected rG eG) (RemoteCall.rejected rO eO)
      = ⟨q, none, some "Failed to get response from Gemini",
          none, some "Failed to get response from OpenAI", none, none,
          ⟨none, none, none, 0⟩⟩ := by
    simp [runParallelAgents, promiseAllSettled2, settle, queryGemini, queryOpenAI,
      settledErrorMessage, initialState]
  refine ⟨?_, ?_, ?_, ?_, ?_⟩
  · simp only [executeAgentWorkflow, runClaudeSynthesis, synthesizeResponses, hsyn]
    exact ⟨_, rfl, rfl, rfl⟩
  · rw [hstate]
    show strContains (buildSynthesisPrompt
      ⟨q, none, some "Failed to get response from Gemini",
        none, some "Failed to get response from OpenAI"⟩) _ = true
    rw [buildSynthesisPrompt, String.append_assoc, String.append_assoc,
      show promptGeminiSection ⟨q, none, some "Failed to get response from Gemini",
          none, some "Failed to get response from OpenAI"⟩
        = "Gemini's Response: [ERROR] Failed to get response from Gemini\n\n" from rfl]
    exact strContains_middle1 _ _ _
  · rw [hstate]
    show strContains (buildSynthesisPrompt
      ⟨q, none, some "Failed to get response from Gemini",
        none, some "Failed to get response from OpenAI"⟩) _ = true
    rw [buildSynthesisPrompt, String.append_assoc, String.append_assoc,
      show promptOpenaiSection ⟨q, none, some "Failed to get response from Gemini",
          none, some "Failed to get response from OpenAI"⟩
        = "OpenAI's Response: [ERROR] Failed to get response from OpenAI\n\n" from rfl]
    exact strContains_middle2 _ _ _ _
  · have hsec : promptGeminiSection (synthesisInputOf
        (runParallelAgents ord (initialState q) (RemoteCall.fulfilled tG eG) oc))
        = "Gemini's Response:\n" ++ tG ++ "\n\n" := by
      cases oc <;>
        simp [runParallelAgents, promiseAllSettled2, settle, queryGemini, queryOpenAI,
          settledErrorMessage, initialState, synthesisInputOf, promptGeminiSection,
          strTruthy, hG]
    rw [buildSynthesisPrompt, String.append_assoc, String.append_assoc, hsec,
      String.append_assoc]
    exact strContains_middle1_splitpat _ _ _ _
  · have hsec : promptOpenaiSection (synthesisInputOf
        (runParallelAgents ord (initialState q) gc (RemoteCall.fulfilled tO eO)))
        = "OpenAI's Response:\n" ++ tO ++ "\n\n" := by
      cases gc <;>
        simp [runParallelAgents, promiseAllSettled2, settle, queryGemini, queryOpenAI,
          settledErrorMessage, initialState, synthesisInputOf, promptOpenaiSection,
          strTruthy, hO]
    rw [buildSynthesisPrompt, String.append_assoc, String.append_assoc, hsec,
      String.append_assoc]
    exact strContains_middle2_splitpat _ _ _ _ _

theorem c7_synthesis_always_invoked_prompt_sections_witness :
    (∃ st, executeAgentWorkflow true "Q" (RemoteCall.rejected Thrown.nonError 1)
        (RemoteCall.rejected Thrown.nonError 2)
        (fun _ => RemoteCall.fulfilled "Z" 9) = Except.ok st
      ∧ (formatSuccessResponse st).success = true
      ∧ st.finalAnswer = some (parseClaudeResponse "Z").finalAnswer)
  ∧ strContains (buildSynthesisPrompt (synthesisInputOf
        (runParallelAgents true (initialState "Q")
          (RemoteCall.rejected Thrown.nonError 1) (RemoteCall.rejected Thrown.nonError 2))))
        "Gemini's Response: [ERROR] Failed to get response from Gemini\n\n" = true
  ∧ strContains (buildSynthesisPrompt (synthesisInputOf
        (runParallelAgents true (initialState "Q")
          (RemoteCall.rejected Thrown.nonError 1) (RemoteCall.rejected Thrown.nonError 2))))
        "OpenAI's Response: [ERROR] Failed to get response from OpenAI\n\n" = true
  ∧ strContains (buildSynthesisPrompt (synthesisInputOf
        (runParallelAgents true (initialState "Q") (RemoteCall.fulfilled "a" 1)
          (RemoteCall.fulfilled "y" 4))))
        ("Gemini's Response:\n" ++ "a" ++ "\n\n") = true
  ∧ strContains (buildSynthesisPrompt (synthesisInputOf
        (runParallelAgents true (initialState "Q") (RemoteCall.fulfilled "x" 3)
          (RemoteCall.fulfilled "b" 2))))
        ("OpenAI's Response:\n" ++ "b" ++ "\n\n") = true :=
  c7_synthesis_always_invoked_prompt_sections true "Q" "a" "b" 1 2
    Thrown.nonError Thrown.nonError (RemoteCall.fulfilled "x" 3) (RemoteCall.fulfilled "y" 4)
    (fun _ => RemoteCall.fulfilled "Z" 9) "Z" 9 (by decide) (by decide) rfl

end ThreeAgents
